import Mathlib

/-!
Verification of the latent/image orchestration layer of ComfyUI-J
(`src/__init__.py`) against its natural-language specification.

The Python source is shallowly embedded: tensors are modelled by their
shapes and by rational-valued contents, external library operators
(`randn_tensor`, the VAE `decode`, PIL resampling) are passed in as
explicit function parameters, and Python exceptions become `Except`
results.  Every definition follows the source line by line; theorems
then settle the specification's claims about those definitions.
-/

namespace ComfyUIJ

/-! ## Latent preparation (`prepare_latents`, src/__init__.py lines 115-144)

A latent tensor is modelled by its flattened rational contents; moving a
tensor to a device (`latents.to(device)`) does not change its values, so
it is the identity on contents.  `randn_tensor` is an external diffusers
operator: it is a deterministic function of the requested shape and of
the generator argument, supplied here as an explicit parameter `randn`.
-/

/-- The pipeline fields `prepare_latents` reads: `pipe.unet.config.in_channels`,
`pipe.vae_scale_factor` and `pipe.scheduler.init_noise_sigma`. -/
structure Pipe where
  in_channels : Nat
  vae_scale_factor : Nat
  init_noise_sigma : ℚ
deriving Repr, DecidableEq

/-- The `generator` argument of `prepare_latents`: either a single
`torch.Generator` (identified by the seed it was `manual_seed`ed with)
or a Python list of per-sample generators. -/
inductive GenArg where
  | single (seed : Nat)
  | list (seeds : List Nat)
deriving Repr, DecidableEq

/-- Tensor shape `(batch_size, in_channels, height // vae_scale_factor,
width // vae_scale_factor)` computed at the top of `prepare_latents`;
Python `//` on non-negative ints is Nat division. -/
def latentShape (pipe : Pipe) (batch_size height width : Nat) :
    Nat × Nat × Nat × Nat :=
  (batch_size, pipe.in_channels,
   height / pipe.vae_scale_factor, width / pipe.vae_scale_factor)

/-- `isinstance(generator, list) and len(generator) != batch_size`. -/
def genListMismatch (generator : GenArg) (batch_size : Nat) : Bool :=
  match generator with
  | .single _ => false
  | .list seeds => seeds.length != batch_size

/-- The error raised by `prepare_latents` (a `ValueError`; the spec's
`ShapeMismatch`). -/
inductive PrepError where
  | shapeMismatch
deriving Repr, DecidableEq

/-- `prepare_latents(pipe, batch_size, height, width, dtype, device,
generator, latents)` (src/__init__.py lines 115-144).  `randn` stands for
the external `randn_tensor(shape, generator=..., device=..., dtype=...)`;
`latents.to(device)` preserves tensor contents.  After the branch the
source runs `latents = latents * pipe.scheduler.init_noise_sigma`
unconditionally and returns. -/
def prepare_latents (pipe : Pipe)
    (randn : Nat × Nat × Nat × Nat → GenArg → List ℚ)
    (batch_size height width : Nat) (generator : GenArg)
    (latents : Option (List ℚ)) : Except PrepError (List ℚ) :=
  let shape := latentShape pipe batch_size height width
  if genListMismatch generator batch_size then
    .error .shapeMismatch
  else
    let l : List ℚ :=
      match latents with
      | none => randn shape generator
      | some given => given
    .ok (l.map (fun x => x * pipe.init_noise_sigma))

/-- A concrete stand-in for the external `randn_tensor`: any deterministic
noise source works for the witnesses; this one emits the generator's first
seed so that distinct seeds are distinguishable. -/
def demoRandn (shape : Nat × Nat × Nat × Nat) (generator : GenArg) : List ℚ :=
  let s : Nat :=
    match generator with
    | .single seed => seed
    | .list seeds => seeds.headD 0
  List.replicate (shape.1) (s : ℚ)

/-! ## Seed handling in `DiffusersGenerator.run` (src/__init__.py lines 770-776)

The node declares `seed` as an INT with `default: 0, min: 0`, then runs

    if not seed:
        seed = random.randint(0, 999999999999)
    generator = torch.Generator(device)
    generator.manual_seed(seed)

`not seed` is Python truthiness: it holds for `seed = 0`, in which case
the seed actually used is drawn from the interpreter's ambient global
random state.  That ambient draw is modelled by the explicit parameter
`ambientDraw` — the value `random.randint(0, 999999999999)` would return
in the interpreter's current hidden global state. -/

/-- The seed `DiffusersGenerator.run` actually feeds to
`generator.manual_seed`: the caller's seed, unless it is falsy (0), in
which case the ambient `random.randint` draw replaces it. -/
def generator_effective_seed (seed : Nat) (ambientDraw : Nat) : Nat :=
  if seed = 0 then ambientDraw else seed

/-- The latent produced by `DiffusersGenerator.run` when `images is None`:
`prepare_latents` called with a single generator seeded with
`generator_effective_seed` and `latents=None` (src/__init__.py lines
770-787). -/
def generator_run_latents (pipe : Pipe)
    (randn : Nat × Nat × Nat × Nat → GenArg → List ℚ)
    (batch_size height width : Nat) (seed ambientDraw : Nat) :
    Except PrepError (List ℚ) :=
  prepare_latents pipe randn batch_size height width
    (.single (generator_effective_seed seed ambientDraw)) none

/-! ## Progress registration in `DiffusersGenerator.run` (src/__init__.py line 771)

`pbar = ProgressBar(int(num_inference_steps * strength))` runs before the
`pipeline(...)` call that drives the denoising loop; `ProgressBar(total)`
registers the expected number of increments with the host UI. -/

/-- Python `int()` applied to a number: truncation toward zero. -/
def pyInt (q : ℚ) : Int := if 0 ≤ q then ⌊q⌋ else -⌊-q⌋

/-- The order of progress-relevant operations in `DiffusersGenerator.run`:
the progress total is registered first, then the pipeline call runs the
denoising loop (src/__init__.py lines 771 and 807). -/
inductive RunEvent where
  | registerTotal (total : Int)
  | pipelineCall
deriving Repr, DecidableEq

/-- The trace of `DiffusersGenerator.run`'s progress-relevant operations:
`ProgressBar(int(num_inference_steps * strength))` is constructed before
the `pipeline(...)` invocation. -/
def generator_run_events (num_inference_steps : Nat) (strength : ℚ) :
    List RunEvent :=
  [.registerTotal (pyInt ((num_inference_steps : ℚ) * strength)),
   .pipelineCall]

/-- C1 counterexample pipeline: a scheduler with `init_noise_sigma = 2`
(e.g. any non-DDIM sigma-scaled scheduler). -/
def pipeSigma2 : Pipe :=
  { in_channels := 4, vae_scale_factor := 8, init_noise_sigma := 2 }

/-! ## PIL images and `resize_with_padding` (src/__init__.py lines 20-43)

A PIL image is modelled by its size, its mode string and a total pixel
function (meaningful on `x < width`, `y < height`).  The external LANCZOS
resampling kernel is an explicit parameter `resample`; `Image.resize`
itself is embedded with Pillow's documented same-size fast path
(`if self.size == size and box == (0, 0) + self.size: return self.copy()`),
under which the copy has the same pixel content. -/

/-- An RGBA pixel; channel values as stored by PIL. -/
structure Pix where
  r : ℚ
  g : ℚ
  b : ℚ
  a : ℚ
deriving Repr, DecidableEq

/-- The fully transparent pixel `(0, 0, 0, 0)`. -/
def clearPix : Pix := ⟨0, 0, 0, 0⟩

/-- A PIL image: size, mode and pixel contents. -/
structure PImage where
  width : Nat
  height : Nat
  mode : String
  pix : Nat → Nat → Pix

/-- `Image.resize(size, resample)`: Pillow returns an unchanged copy when
the requested size equals the current size, otherwise it runs the
resampling kernel. -/
def pilResize (resample : PImage → Nat → Nat → PImage) (image : PImage)
    (nw nh : Nat) : PImage :=
  if image.width = nw ∧ image.height = nh then image else resample image nw nh

/-- `Image.new("RGBA", (w, h), (0, 0, 0, 0))`: a transparent canvas. -/
def pilNewRGBA (w h : Nat) : PImage :=
  { width := w, height := h, mode := "RGBA", pix := fun _ _ => clearPix }

/-- `background.paste(src, (px, py))`: pixels inside the pasted region
come from `src` (converted to the canvas mode, which preserves channel
values), the rest keep the background's content; the canvas size and mode
are unchanged. -/
def pilPaste (background : PImage) (src : PImage) (px py : Nat) : PImage :=
  { background with
    pix := fun x y =>
      if px ≤ x ∧ x < px + src.width ∧ py ≤ y ∧ y < py + src.height then
        src.pix (x - px) (y - py)
      else background.pix x y }

/-- `resize_with_padding(image, target_size)` (src/__init__.py lines
20-43): scale by the minimum of the two axis ratios, resize with LANCZOS
(`resample`), paste centered onto a transparent RGBA canvas of exactly
`target_size`.  Python `int(...)` of the non-negative products is `pyInt`
followed by `toNat`, and the paste position `(target - new) // 2` is
non-negative because the new dimensions never exceed the target. -/
def resize_with_padding (resample : PImage → Nat → Nat → PImage)
    (image : PImage) (target_size : Nat × Nat) : PImage :=
  let wr : ℚ := (target_size.1 : ℚ) / (image.width : ℚ)
  let hr : ℚ := (target_size.2 : ℚ) / (image.height : ℚ)
  let r : ℚ := min wr hr
  let new_width : Nat := (pyInt ((image.width : ℚ) * r)).toNat
  let new_height : Nat := (pyInt ((image.height : ℚ) * r)).toNat
  let scaled := pilResize resample image new_width new_height
  let background := pilNewRGBA target_size.1 target_size.2
  let position := ((target_size.1 - new_width) / 2,
                   (target_size.2 - new_height) / 2)
  pilPaste background scaled position.1 position.2

/-- A concrete resampling kernel for witnesses: it honours the requested
output size (as Pillow's kernels do) and produces transparent pixels. -/
def demoResample (image : PImage) (nw nh : Nat) : PImage :=
  { width := nw, height := nh, mode := image.mode, pix := fun _ _ => clearPix }

/-- A concrete 2-by-2 source image for witnesses. -/
def demoImage2x2 : PImage :=
  { width := 2, height := 2, mode := "RGB",
    pix := fun x y => ⟨x, y, 1, 1⟩ }

/-! ## Decoder adapter (`latents_to_img_tensor`, src/__init__.py lines 73-93)

Tensor element values are modelled as extended rationals with NaN, so the
IEEE special values that `torch.nan_to_num` and the diffusers clamp act
on are represented exactly; the rounding performed by precision casts is
abstracted (values are carried exactly), which is irrelevant to the
claims about special-value sanitization, layout and range.  The VAE
`decode` operator is an explicit parameter. -/

/-- A floating-point tensor element: finite value, an infinity, or NaN. -/
inductive FVal where
  | fin (q : ℚ)
  | posinf
  | neginf
  | nan
deriving Repr, DecidableEq

/-- The largest finite float32 value, `(2^24 - 1) * 2^104`. -/
def FLOAT32_MAX : ℚ := (2 ^ 24 - 1) * 2 ^ 104

/-- The torch dtypes this layer moves tensors between. -/
inductive DType where
  | float32
  | float16
  | bfloat16
deriving Repr, DecidableEq

/-- A torch tensor: shape, dtype, and flattened contents (a total
function; meaningful on indices below the number of elements). -/
structure TTensor where
  shape : List Nat
  dtype : DType
  val : Nat → FVal

/-- Elementwise map over a tensor's values (shape and dtype unchanged). -/
def tmap (f : FVal → FVal) (t : TTensor) : TTensor :=
  { t with val := fun i => f (t.val i) }

/-- Division of one element by the `vae.config.scaling_factor` constant
(a fixed positive scalar, 0.18215 for the SD family): finite values are
divided, infinities keep their sign, NaN propagates. -/
def fvalDiv (v : FVal) (s : ℚ) : FVal :=
  match v with
  | .fin q => .fin (q / s)
  | .posinf => .posinf
  | .neginf => .neginf
  | .nan => .nan

/-- One element of the diffusers `VaeImageProcessor.postprocess` step with
`do_denormalize` true: `denormalize(x) = (x / 2 + 0.5).clamp(0, 1)`.
`torch.clamp` propagates NaN and saturates the infinities to the clamp
bounds. -/
def denormalizeVal (v : FVal) : FVal :=
  match v with
  | .fin q => .fin (max 0 (min 1 (q / 2 + 1 / 2)))
  | .posinf => .fin 1
  | .neginf => .fin 0
  | .nan => .nan

/-- One element of `torch.nan_to_num` with default arguments: NaN becomes
zero, +Inf becomes the dtype's greatest finite value and −Inf its least —
not zero. -/
def nanToNumVal (fmax : ℚ) (v : FVal) : FVal :=
  match v with
  | .fin q => .fin q
  | .posinf => .fin fmax
  | .neginf => .fin (-fmax)
  | .nan => .fin 0

/-- The source flat index feeding output flat index `i` of
`res.permute(0, 2, 3, 1)` on a `[b, c, h, w]` tensor. -/
def permIdx0231 (c h w i : Nat) : Nat :=
  let cI := i % c
  let r1 := i / c
  let wI := r1 % w
  let r2 := r1 / w
  let hI := r2 % h
  let bI := r2 / h
  ((bI * c + cI) * h + hI) * w + wI

/-- `res.permute(0, 2, 3, 1)`: batch, height, width, channel-last layout;
the identity on tensors that are not 4-dimensional. -/
def permute0231 (t : TTensor) : TTensor :=
  match t.shape with
  | [b, c, h, w] =>
      { shape := [b, h, w, c], dtype := t.dtype,
        val := fun i => t.val (permIdx0231 c h w i) }
  | _ => t

/-- The tensor handed to `pipeline.vae.decode`: the latent divided by
`scaling_factor` and cast to the decoder's dtype
(`comfy.model_management.vae_dtype()`), src/__init__.py lines 76-78. -/
def decodeInput (scaling_factor : ℚ) (vae_dtype : DType)
    (latents : TTensor) : TTensor :=
  { tmap (fun v => fvalDiv v scaling_factor) latents with dtype := vae_dtype }

/-- `latents_to_img_tensor(pipeline, latents)` (src/__init__.py lines
73-93): scale and cast the latent, decode, denormalize every sample of
the batch (`do_denormalize=[True, ...]`), `torch.nan_to_num`, cast to
float32, and move channels last with `permute(0, 2, 3, 1)`. -/
def latents_to_img_tensor (decode : TTensor → TTensor) (scaling_factor : ℚ)
    (vae_dtype : DType) (latents : TTensor) : TTensor :=
  let dec_tensor := decode (decodeInput scaling_factor vae_dtype latents)
  let dec_images := tmap denormalizeVal dec_tensor
  let res := { tmap (nanToNumVal FLOAT32_MAX) dec_images with
                 dtype := DType.float32 }
  permute0231 res

/-- A finite value in the unit interval `[0, 1]`. -/
def inUnitRange (v : FVal) : Prop :=
  match v with
  | .fin q => 0 ≤ q ∧ q ≤ 1
  | _ => False

/-- A decoder stub for the C7 counterexample: the decoded tensor is a
1×1×1×1 tensor holding +Inf (a decoder overflow). -/
def decPosinf (_ : TTensor) : TTensor :=
  { shape := [1, 1, 1, 1], dtype := .float16, val := fun _ => .posinf }

/-- A concrete latent input for the C7 theorems. -/
def demoLatent : TTensor :=
  { shape := [1, 4, 1, 1], dtype := .float16, val := fun _ => .fin 1 }

/-! ## Control-unit stack (`DiffusersControlNetUnitStack.run`,
src/__init__.py lines 651-664)

Each slot carries a Python tuple of units (the node type chains, so a
slot may hold several); the optional slots default to `None`.  `if slot:`
is Python truthiness: `None` and the empty tuple are skipped. -/

/-- Python truthiness of an optional tuple of units. -/
def pyTruthy {α : Type} (o : Option (List α)) : Bool :=
  match o with
  | none => false
  | some l => !l.isEmpty

/-- `DiffusersControlNetUnitStack.run(unit_1, unit_2, unit_3)`
(src/__init__.py lines 651-664): start from an empty stack and append
each truthy slot in argument order. -/
def controlNetUnitStack_run {α : Type} (controlnet_unit_1 : List α)
    (controlnet_unit_2 controlnet_unit_3 : Option (List α)) : List α :=
  let stack : List α := []
  let stack :=
    if !controlnet_unit_1.isEmpty then stack ++ controlnet_unit_1 else stack
  let stack :=
    if pyTruthy controlnet_unit_2 then stack ++ controlnet_unit_2.getD []
    else stack
  let stack :=
    if pyTruthy controlnet_unit_3 then stack ++ controlnet_unit_3.getD []
    else stack
  stack

/-- The specification's description of `buildStack`, stated from the
spec's words for comparison with the source's `controlNetUnitStack_run`:
the concatenation of the supplied slots in argument order (empty slots
contribute nothing, relative unit order is preserved). -/
def buildStackSpec {α : Type} (slots : List (Option (List α))) : List α :=
  (slots.filterMap id).flatten

/-! ## IMAGE-to-PIL conversion (`comfy_image_to_pil`, src/__init__.py
lines 46-50) and `DiffusersControlNetUnit.run` (lines 605-620)

Only shape-relevant behaviour decides success: the `* 255` scale and the
uint8 cast preserve the array shape, so `Image.fromarray` sees exactly
the post-squeeze shape. -/

/-- `tensor.squeeze(0)`: drops the leading dimension iff its size is 1. -/
def squeeze0 (shape : List Nat) : List Nat :=
  match shape with
  | [] => []
  | d :: rest => if d = 1 then rest else d :: rest

/-- The `TypeError` PIL raises when `Image.fromarray` cannot interpret an
array ("Cannot handle this data type"). -/
inductive PilConvError where
  | cannotHandle
deriving Repr, DecidableEq

/-- PIL `Image.fromarray` on a uint8 array, by shape: 2-D arrays map to
mode L, 3-D arrays with 2, 3 or 4 channels map to LA/RGB/RGBA; any other
dimensionality has no `_fromarray_typemap` entry and raises.  The result
is identified by its shape. -/
def image_fromarray (shape : List Nat) : Except PilConvError (List Nat) :=
  match shape with
  | [h, w] => .ok [h, w]
  | [h, w, c] =>
      if c = 2 ∨ c = 3 ∨ c = 4 then .ok [h, w, c]
      else .error .cannotHandle
  | _ => .error .cannotHandle

/-- `comfy_image_to_pil(image)` (src/__init__.py lines 46-50):
`image.squeeze(0)`, scale to 0-255, cast to uint8, `Image.fromarray`. -/
def comfy_image_to_pil (shape : List Nat) : Except PilConvError (List Nat) :=
  image_fromarray (squeeze0 shape)

/-- `DiffusersControlNetUnit.run` (src/__init__.py lines 605-620): builds
the unit record after converting the IMAGE tensor to PIL; a conversion
failure propagates and aborts the node. -/
def controlNetUnit_run (controlnet : Nat) (imageShape : List Nat)
    (scale start end_ : ℚ) :
    Except PilConvError (Nat × List Nat × ℚ × ℚ × ℚ) :=
  match comfy_image_to_pil imageShape with
  | .ok pilShape => .ok (controlnet, pilShape, scale, start, end_)
  | .error e => .error e

/-! ## In-place unit resizing in `DiffusersGenerator.run`
(src/__init__.py lines 794-806)

`width = images.shape[2]`, `height = images.shape[1]` (the active canvas
from the actual image tensor), then for each caller-supplied unit object
`unit.image = resize_with_padding(unit.image, (width, height))` — an
in-place field assignment on the caller's objects.  The returned list
models the post-call contents of those same objects. -/

/-- A `ControlNetUnit` as stored by the pipeline wrapper: control-network
handle (identified by an id), conditioning image, influence scale and
activation window. -/
structure CtrlUnit where
  controlnet : Nat
  image : PImage
  scale : ℚ
  start : ℚ
  end_ : ℚ

/-- The active canvas `target_image_shape = (width, height)` where
`width = images.shape[2]` and `height = images.shape[1]` of the actual
image tensor (src/__init__.py lines 795-796 and 803). -/
def activeCanvas (imagesShape : List Nat) : Nat × Nat :=
  (imagesShape.getD 2 0, imagesShape.getD 1 0)

/-- The controlnet-unit preprocessing loop of `DiffusersGenerator.run`:
every unit's `image` field is overwritten with the letterbox resize to
the active canvas `(images.shape[2], images.shape[1])`; no other field is
touched. -/
def generator_resize_units (resample : PImage → Nat → Nat → PImage)
    (imagesShape : List Nat) (units : List CtrlUnit) : List CtrlUnit :=
  units.map (fun unit =>
    { unit with
      image := resize_with_padding resample unit.image
        (activeCanvas imagesShape) })

/-- A concrete control unit for the C10 witness. -/
def demoUnit : CtrlUnit :=
  { controlnet := 7, image := demoImage2x2, scale := 1, start := 0,
    end_ := 1 }

end ComfyUIJ

namespace ComfyUIJ

/-- C1: the claim says a supplied latent is returned changed only by a
device/precision cast, with no `init_noise_sigma` multiplication.  The
source multiplies unconditionally (line 143): with `init_noise_sigma = 2`
the supplied latent `[1]` comes back as `[2]`, not `[1]`. -/
theorem prepare_latents_rescales_supplied_latent :
    prepare_latents pipeSigma2 demoRandn 1 64 64 (.single 0) (some [1])
      = .ok [2] ∧ ([2] : List ℚ) ≠ [1] := by
  constructor
  · simp [prepare_latents, genListMismatch, pipeSigma2]
  · decide

/-- C1 (amended): for every pipeline and every supplied latent `L` (with
a well-formed generator argument), `prepare_latents` returns `L` moved to
the device and then multiplied elementwise by the scheduler's
`init_noise_sigma`; the round-trip without rescaling holds only when
`init_noise_sigma = 1`. -/
theorem prepare_latents_supplied_latent_scaled (pipe : Pipe)
    (randn : Nat × Nat × Nat × Nat → GenArg → List ℚ)
    (batch_size height width : Nat) (generator : GenArg) (given : List ℚ)
    (h : genListMismatch generator batch_size = false) :
    prepare_latents pipe randn batch_size height width generator (some given)
      = .ok (given.map (fun x => x * pipe.init_noise_sigma)) := by
  simp [prepare_latents, h]

/-- Witness for C1's amended theorem at a concrete input. -/
theorem prepare_latents_supplied_latent_scaled_witness :
    prepare_latents pipeSigma2 demoRandn 2 64 64 (.list [3, 4]) (some [1, 5])
      = .ok [2, 10] :=
  (prepare_latents_supplied_latent_scaled pipeSigma2 demoRandn 2 64 64
    (.list [3, 4]) [1, 5] (by decide)).trans (by norm_num [pipeSigma2])

end ComfyUIJ

namespace ComfyUIJ

/-- C3: `prepare_latents` fails with the `ShapeMismatch` `ValueError` if
and only if the generator argument is a Python list whose length differs
from `batch_size`; when it fails, the result is independent of the noise
source and of the latents argument — the check fires before any noise is
drawn or latent state produced. -/
theorem prepare_latents_shape_mismatch_iff (pipe : Pipe)
    (randn : Nat × Nat × Nat × Nat → GenArg → List ℚ)
    (batch_size height width : Nat) (generator : GenArg)
    (latents : Option (List ℚ)) :
    ((∃ e, prepare_latents pipe randn batch_size height width generator
        latents = .error e)
      ↔ ∃ seeds, generator = .list seeds ∧ seeds.length ≠ batch_size) ∧
    ((∃ seeds, generator = .list seeds ∧ seeds.length ≠ batch_size) →
      ∀ (randn' : Nat × Nat × Nat × Nat → GenArg → List ℚ)
        (latents' : Option (List ℚ)),
        prepare_latents pipe randn' batch_size height width generator
          latents' = .error .shapeMismatch) := by
  have hchar : genListMismatch generator batch_size = true
      ↔ ∃ seeds, generator = .list seeds ∧ seeds.length ≠ batch_size := by
    cases generator with
    | single s => simp [genListMismatch]
    | list seeds => simp [genListMismatch]
  constructor
  · rw [← hchar]
    unfold prepare_latents
    by_cases h : genListMismatch generator batch_size <;> simp [h]
    exact ⟨.shapeMismatch, trivial⟩
  · rw [← hchar]
    intro h randn' latents'
    unfold prepare_latents
    simp [h]

/-- Witness for C3 at a concrete input: a generator list of length 2 with
`batch_size = 4` fails with `ShapeMismatch`. -/
theorem prepare_latents_shape_mismatch_iff_witness :
    prepare_latents pipeSigma2 demoRandn 4 64 64 (.list [1, 2]) none
      = .error .shapeMismatch :=
  (prepare_latents_shape_mismatch_iff pipeSigma2 demoRandn 4 64 64
    (.list [1, 2]) none).2 ⟨[1, 2], rfl, by decide⟩ demoRandn none

/-- C2 (code bug): the seed widget of `DiffusersGenerator` declares
`min: 0, default: 0`, but `if not seed:` treats the valid seed 0 as
absent and replaces it with an ambient `random.randint` draw, so two
invocations with seed 0 under different ambient global random states
produce different latents; for every nonzero seed the output is
independent of the ambient state, as the spec demands for all valid
seeds. -/
theorem generator_seed_zero_breaks_determinism :
    (generator_run_latents pipeSigma2 demoRandn 1 64 64 0 5
      ≠ generator_run_latents pipeSigma2 demoRandn 1 64 64 0 7) ∧
    generator_effective_seed 0 5 = 5 ∧
    generator_effective_seed 0 7 = 7 ∧
    (∀ (pipe : Pipe) (randn : Nat × Nat × Nat × Nat → GenArg → List ℚ)
      (batch_size height width seed a a' : Nat), seed ≠ 0 →
      generator_run_latents pipe randn batch_size height width seed a
        = generator_run_latents pipe randn batch_size height width seed a') := by
  refine ⟨?_, rfl, rfl, ?_⟩
  · intro h
    simp only [generator_run_latents, prepare_latents, generator_effective_seed,
      genListMismatch, demoRandn, pipeSigma2, latentShape] at h
    norm_num at h
  · intro pipe randn batch_size height width seed a a' h
    simp [generator_run_latents, generator_effective_seed, h]

/-- Witness for C2's theorem: a nonzero seed (3) gives identical latents
under two different ambient states. -/
theorem generator_seed_zero_breaks_determinism_witness :
    generator_run_latents pipeSigma2 demoRandn 1 64 64 3 5
      = generator_run_latents pipeSigma2 demoRandn 1 64 64 3 7 :=
  generator_seed_zero_breaks_determinism.2.2.2 pipeSigma2 demoRandn 1 64 64 3 5 7
    (by decide)

/-- C4: `DiffusersGenerator.run` registers the progress total with the
`ProgressBar` before the pipeline call that runs the denoising loop, the
registered total is `int(num_inference_steps * strength)` which for the
non-negative `strength` equals `floor(steps * strength)`, and the
scenario `steps = 30, strength = 0.5` registers exactly 15. -/
theorem generator_progress_total (num_inference_steps : Nat) (strength : ℚ)
    (h : 0 ≤ strength) :
    generator_run_events num_inference_steps strength
      = [.registerTotal ⌊(num_inference_steps : ℚ) * strength⌋,
         .pipelineCall] ∧
    generator_run_events 30 (1 / 2)
      = [.registerTotal 15, .pipelineCall] := by
  constructor
  · have hpos : (0 : ℚ) ≤ (num_inference_steps : ℚ) * strength :=
      mul_nonneg (Nat.cast_nonneg _) h
    simp [generator_run_events, pyInt, hpos]
  · norm_num [generator_run_events, pyInt]

/-- Witness for C4 at the spec's concrete scenario. -/
theorem generator_progress_total_witness :
    generator_run_events 30 (1 / 2)
      = [.registerTotal 15, .pipelineCall] :=
  (generator_progress_total 30 (1 / 2) (by norm_num)).2

end ComfyUIJ

namespace ComfyUIJ

/-- Pasting does not change the canvas width. -/
theorem pilPaste_width (bg src : PImage) (px py : Nat) :
    (pilPaste bg src px py).width = bg.width := rfl

/-- Pasting does not change the canvas height. -/
theorem pilPaste_height (bg src : PImage) (px py : Nat) :
    (pilPaste bg src px py).height = bg.height := rfl

/-- Pixels inside the pasted region come from the source image. -/
theorem pilPaste_pix_inside (bg src : PImage) (px py dx dy : Nat)
    (h1 : dx < src.width) (h2 : dy < src.height) :
    (pilPaste bg src px py).pix (px + dx) (py + dy) = src.pix dx dy := by
  unfold pilPaste
  simp only
  rw [if_pos ⟨Nat.le_add_right px dx, by omega, Nat.le_add_right py dy, by omega⟩]
  rw [Nat.add_sub_cancel_left, Nat.add_sub_cancel_left]

/-- Pixels outside the pasted region keep the background's content. -/
theorem pilPaste_pix_outside (bg src : PImage) (px py x y : Nat)
    (h : x < px ∨ px + src.width ≤ x ∨ y < py ∨ py + src.height ≤ y) :
    (pilPaste bg src px py).pix x y = bg.pix x y := by
  unfold pilPaste
  simp only
  rw [if_neg]
  intro hc
  omega

/-- If the resampling kernel honours the requested size (as Pillow's
kernels do), so does `pilResize`. -/
theorem pilResize_size (resample : PImage → Nat → Nat → PImage)
    (hres : ∀ im a b,
      (resample im a b).width = a ∧ (resample im a b).height = b)
    (image : PImage) (nw nh : Nat) :
    (pilResize resample image nw nh).width = nw ∧
    (pilResize resample image nw nh).height = nh := by
  unfold pilResize
  split
  · rename_i h
    exact ⟨h.1, h.2⟩
  · exact hres image nw nh

/-- `resize_with_padding` unfolded to its paste normal form. -/
theorem resize_with_padding_eq (resample : PImage → Nat → Nat → PImage)
    (image : PImage) (tw th : Nat) :
    resize_with_padding resample image (tw, th)
      = pilPaste (pilNewRGBA tw th)
          (pilResize resample image
            ((pyInt ((image.width : ℚ) * min ((tw : ℚ) / (image.width : ℚ))
              ((th : ℚ) / (image.height : ℚ)))).toNat)
            ((pyInt ((image.height : ℚ) * min ((tw : ℚ) / (image.width : ℚ))
              ((th : ℚ) / (image.height : ℚ)))).toNat))
          ((tw - (pyInt ((image.width : ℚ) * min ((tw : ℚ) / (image.width : ℚ))
              ((th : ℚ) / (image.height : ℚ)))).toNat) / 2)
          ((th - (pyInt ((image.height : ℚ) * min ((tw : ℚ) / (image.width : ℚ))
              ((th : ℚ) / (image.height : ℚ)))).toNat) / 2) := rfl

end ComfyUIJ

namespace ComfyUIJ

/-- C5: for every source image and target size `(tw, th)`,
`resize_with_padding` scales by exactly the minimum of the two axis
ratios `min(tw / srcW, th / srcH)` (the scaled dimensions are the
truncated products with that ratio), pastes the scaled image at the
centered position `((tw - nw) / 2, (th - nh) / 2)` on a transparent
canvas, and returns an image of exactly the target size; every canvas
pixel outside the centered region is transparent. -/
theorem resize_with_padding_letterbox (resample : PImage → Nat → Nat → PImage)
    (hres : ∀ im a b,
      (resample im a b).width = a ∧ (resample im a b).height = b)
    (image : PImage) (tw th nw nh : Nat)
    (hnw : nw = (pyInt ((image.width : ℚ) * min ((tw : ℚ) / (image.width : ℚ))
      ((th : ℚ) / (image.height : ℚ)))).toNat)
    (hnh : nh = (pyInt ((image.height : ℚ) * min ((tw : ℚ) / (image.width : ℚ))
      ((th : ℚ) / (image.height : ℚ)))).toNat) :
    (resize_with_padding resample image (tw, th)).width = tw ∧
    (resize_with_padding resample image (tw, th)).height = th ∧
    (∀ dx dy, dx < nw → dy < nh →
      (resize_with_padding resample image (tw, th)).pix
          ((tw - nw) / 2 + dx) ((th - nh) / 2 + dy)
        = (pilResize resample image nw nh).pix dx dy) ∧
    (∀ x y, (x < (tw - nw) / 2 ∨ (tw - nw) / 2 + nw ≤ x ∨
        y < (th - nh) / 2 ∨ (th - nh) / 2 + nh ≤ y) →
      (resize_with_padding resample image (tw, th)).pix x y = clearPix) := by
  subst hnw hnh
  rw [resize_with_padding_eq]
  obtain ⟨hsw, hsh⟩ := pilResize_size resample hres image
    ((pyInt ((image.width : ℚ) * min ((tw : ℚ) / (image.width : ℚ))
      ((th : ℚ) / (image.height : ℚ)))).toNat)
    ((pyInt ((image.height : ℚ) * min ((tw : ℚ) / (image.width : ℚ))
      ((th : ℚ) / (image.height : ℚ)))).toNat)
  refine ⟨rfl, rfl, ?_, ?_⟩
  · intro dx dy hdx hdy
    exact pilPaste_pix_inside _ _ _ _ dx dy (by rw [hsw]; exact hdx)
      (by rw [hsh]; exact hdy)
  · intro x y h
    rw [pilPaste_pix_outside]
    · rfl
    · rw [hsw, hsh]
      exact h

/-- Witness for C5: a 2-by-2 image letterboxed to `(4, 6)` is scaled by
`min(4/2, 6/2) = 2` to `4` by `4`, pasted at `(0, 1)`; the output has
size `(4, 6)`, carries the scaled pixels inside the region and is
transparent outside it. -/
theorem resize_with_padding_letterbox_witness :
    (resize_with_padding demoResample demoImage2x2 (4, 6)).width = 4 ∧
    (resize_with_padding demoResample demoImage2x2 (4, 6)).height = 6 ∧
    (resize_with_padding demoResample demoImage2x2 (4, 6)).pix 1 2
      = (pilResize demoResample demoImage2x2 4 4).pix 1 1 ∧
    (resize_with_padding demoResample demoImage2x2 (4, 6)).pix 2 0
      = clearPix := by
  have H := resize_with_padding_letterbox demoResample
    (fun _ _ _ => ⟨rfl, rfl⟩) demoImage2x2 4 6 4 4
    (by norm_num [pyInt, demoImage2x2]; rfl)
    (by norm_num [pyInt, demoImage2x2]; rfl)
  refine ⟨H.1, H.2.1, ?_, ?_⟩
  · have := H.2.2.1 1 1 (by norm_num) (by norm_num)
    simpa using this
  · have := H.2.2.2 2 0 (by norm_num)
    simpa using this

/-- C6: when the source image already has exactly the target size, the
ratio is `min(tw/tw, th/th) = 1`, Pillow's same-size resize fast path
returns the image unchanged, and the paste at `(0, 0)` covers the whole
canvas, so the output's pixel content equals the input's on every canvas
coordinate (and the size is unchanged). -/
theorem resize_with_padding_identity (resample : PImage → Nat → Nat → PImage)
    (image : PImage) (tw th : Nat)
    (hw : image.width = tw) (hh : image.height = th)
    (htw : 0 < tw) (hth : 0 < th) :
    (resize_with_padding resample image (tw, th)).width = tw ∧
    (resize_with_padding resample image (tw, th)).height = th ∧
    ∀ x y, x < tw → y < th →
      (resize_with_padding resample image (tw, th)).pix x y
        = image.pix x y := by
  have hwq : ((tw : ℚ)) / ((image.width : ℚ)) = 1 := by
    rw [hw]
    exact div_self (Nat.cast_ne_zero.mpr htw.ne')
  have hhq : ((th : ℚ)) / ((image.height : ℚ)) = 1 := by
    rw [hh]
    exact div_self (Nat.cast_ne_zero.mpr hth.ne')
  have hmin : min ((tw : ℚ) / (image.width : ℚ))
      ((th : ℚ) / (image.height : ℚ)) = 1 := by
    rw [hwq, hhq, min_self]
  have hnw : (pyInt ((image.width : ℚ) * min ((tw : ℚ) / (image.width : ℚ))
      ((th : ℚ) / (image.height : ℚ)))).toNat = tw := by
    rw [hmin, mul_one, pyInt, if_pos (by positivity), Int.floor_natCast, hw,
      Int.toNat_natCast]
  have hnh : (pyInt ((image.height : ℚ) * min ((tw : ℚ) / (image.width : ℚ))
      ((th : ℚ) / (image.height : ℚ)))).toNat = th := by
    rw [hmin, mul_one, pyInt, if_pos (by positivity), Int.floor_natCast, hh,
      Int.toNat_natCast]
  rw [resize_with_padding_eq, hnw, hnh]
  have hfast : pilResize resample image tw th = image := by
    unfold pilResize
    rw [if_pos ⟨hw, hh⟩]
  rw [hfast]
  refine ⟨rfl, rfl, ?_⟩
  intro x y hx hy
  have := pilPaste_pix_inside (pilNewRGBA tw th) image ((tw - tw) / 2)
    ((th - th) / 2) x y (hw ▸ hx) (hh ▸ hy)
  simpa using this

/-- Witness for C6: a 2-by-2 image resized to `(2, 2)` keeps its pixel
content. -/
theorem resize_with_padding_identity_witness :
    (resize_with_padding demoResample demoImage2x2 (2, 2)).pix 1 0
      = demoImage2x2.pix 1 0 :=
  (resize_with_padding_identity demoResample demoImage2x2 2 2 rfl rfl
    (by norm_num) (by norm_num)).2.2 1 0 (by norm_num) (by norm_num)

end ComfyUIJ

namespace ComfyUIJ

/-- `permute0231` preserves the dtype. -/
theorem permute0231_dtype (t : TTensor) :
    (permute0231 t).dtype = t.dtype := by
  unfold permute0231
  split
  · rfl
  · rfl

/-- Every value of a permuted tensor is a value of the original one. -/
theorem permute0231_val (t : TTensor) (i : Nat) :
    ∃ j, (permute0231 t).val i = t.val j := by
  unfold permute0231
  split
  · exact ⟨_, rfl⟩
  · exact ⟨i, rfl⟩

/-- On a 4-D tensor, `permute0231` moves the channel dimension last and
reads values through `permIdx0231`. -/
theorem permute0231_of_shape (t : TTensor) (b c h w : Nat)
    (ht : t.shape = [b, c, h, w]) :
    (permute0231 t).shape = [b, h, w, c] ∧
    ∀ i, (permute0231 t).val i = t.val (permIdx0231 c h w i) := by
  obtain ⟨s, d, v⟩ := t
  simp only at ht
  subst ht
  exact ⟨rfl, fun _ => rfl⟩

/-- Denormalization followed by `nan_to_num` always lands in `[0, 1]`. -/
theorem sanitize_in_unit (v : FVal) :
    inUnitRange (nanToNumVal FLOAT32_MAX (denormalizeVal v)) := by
  cases v with
  | fin q =>
    exact ⟨le_max_left 0 _, max_le zero_le_one (min_le_left 1 _)⟩
  | posinf => exact ⟨zero_le_one, le_refl 1⟩
  | neginf => exact ⟨le_refl 0, zero_le_one⟩
  | nan => exact ⟨le_refl 0, zero_le_one⟩

/-- C7 counterexample: the claim says `decodeToImage` replaces any
NaN/Inf value with 0.  With a decoded +Inf element, the denormalization
clamp saturates it to 1 before `torch.nan_to_num` runs, so the output
pixel is 1, not 0. -/
theorem latents_to_img_tensor_posinf_to_one :
    (decPosinf (decodeInput (18215 / 100000) .float16 demoLatent)).val 0
      = .posinf ∧
    (latents_to_img_tensor decPosinf (18215 / 100000) .float16
        demoLatent).val 0 = .fin 1 ∧
    FVal.fin 1 ≠ FVal.fin 0 := by
  refine ⟨rfl, rfl, ?_⟩
  decide

/-- C7 (amended): `latents_to_img_tensor` hands the decoder the latent
divided by the scaling factor and cast to the decoder's dtype; the output
is float32, channel-last (`[b, c, h, w]` becomes `[b, h, w, c]`), every
output value is the denormalize-then-`nan_to_num` image of a decoded
value, all output values are finite in `[0, 1]`, and the sanitization
maps NaN to 0, −Inf to 0 and +Inf to 1 (the clamp, not `nan_to_num`,
absorbs the infinities). -/
theorem latents_to_img_tensor_spec (decode : TTensor → TTensor)
    (scaling_factor : ℚ) (vae_dtype : DType) (latents : TTensor)
    (_hsf : 0 < scaling_factor) :
    ((decodeInput scaling_factor vae_dtype latents).dtype = vae_dtype ∧
      ∀ i, (decodeInput scaling_factor vae_dtype latents).val i
          = fvalDiv (latents.val i) scaling_factor) ∧
    ((latents_to_img_tensor decode scaling_factor vae_dtype latents).dtype
        = .float32 ∧
      ∀ i, inUnitRange
        ((latents_to_img_tensor decode scaling_factor vae_dtype
          latents).val i)) ∧
    (∀ b c h w,
      (decode (decodeInput scaling_factor vae_dtype latents)).shape
          = [b, c, h, w] →
      (latents_to_img_tensor decode scaling_factor vae_dtype latents).shape
          = [b, h, w, c] ∧
      ∀ i, (latents_to_img_tensor decode scaling_factor vae_dtype
          latents).val i
        = nanToNumVal FLOAT32_MAX (denormalizeVal
            ((decode (decodeInput scaling_factor vae_dtype latents)).val
              (permIdx0231 c h w i)))) ∧
    (nanToNumVal FLOAT32_MAX (denormalizeVal .nan) = .fin 0 ∧
      nanToNumVal FLOAT32_MAX (denormalizeVal .neginf) = .fin 0 ∧
      nanToNumVal FLOAT32_MAX (denormalizeVal .posinf) = .fin 1) := by
  refine ⟨⟨rfl, fun i => rfl⟩, ⟨?_, ?_⟩, ?_, rfl, rfl, rfl⟩
  · exact permute0231_dtype _
  · intro i
    obtain ⟨j, hj⟩ := permute0231_val
      ({ tmap (nanToNumVal FLOAT32_MAX) (tmap denormalizeVal
          (decode (decodeInput scaling_factor vae_dtype latents))) with
        dtype := DType.float32 }) i
    show inUnitRange _
    rw [show (latents_to_img_tensor decode scaling_factor vae_dtype
        latents).val i
      = ({ tmap (nanToNumVal FLOAT32_MAX) (tmap denormalizeVal
          (decode (decodeInput scaling_factor vae_dtype latents))) with
        dtype := DType.float32 } : TTensor).val j from hj]
    exact sanitize_in_unit _
  · intro b c h w hdec
    exact permute0231_of_shape _ b c h w hdec

/-- Witness for C7's amended theorem at a concrete decoder and latent. -/
theorem latents_to_img_tensor_spec_witness :
    (decodeInput (18215 / 100000) .float16 demoLatent).dtype = .float16 ∧
    (latents_to_img_tensor decPosinf (18215 / 100000) .float16
        demoLatent).dtype = .float32 ∧
    inUnitRange ((latents_to_img_tensor decPosinf (18215 / 100000) .float16
        demoLatent).val 0) ∧
    (latents_to_img_tensor decPosinf (18215 / 100000) .float16
        demoLatent).shape = [1, 1, 1, 1] := by
  have H := latents_to_img_tensor_spec decPosinf (18215 / 100000) .float16
    demoLatent (by norm_num)
  exact ⟨H.1.1, H.2.1.1, H.2.1.2 0, (H.2.2.1 1 1 1 1 rfl).1⟩

end ComfyUIJ

namespace ComfyUIJ
/-- C8: `DiffusersControlNetUnitStack.run` returns exactly the
concatenation of the non-empty slots in argument order — slot 1, then
slot 2, then slot 3 — skipping `None` and empty slots, which is the
spec-side `buildStackSpec` of the three slots; the equality preserves
the relative order of every unit. -/
theorem controlNetUnitStack_run_concat {α : Type} (u1 : List α)
    (u2 u3 : Option (List α)) :
    controlNetUnitStack_run u1 u2 u3 = buildStackSpec [some u1, u2, u3] := by
  have aux : ∀ (l s : List α), (if !l.isEmpty then s ++ l else s) = s ++ l := by
    intro l s
    by_cases h : l = [] <;> simp [h]
  have aux2 : ∀ (o : Option (List α)) (s : List α),
      (if pyTruthy o then s ++ o.getD [] else s) = s ++ o.getD [] := by
    intro o s
    rcases o with _ | l
    · simp [pyTruthy]
    · by_cases h : l = [] <;> simp [pyTruthy, h]
  simp only [controlNetUnitStack_run]
  rw [aux, aux2, aux2]
  rcases u2 with _ | l2 <;> rcases u3 with _ | l3 <;> simp [buildStackSpec]

/-- C9: `DiffusersControlNetUnit.run` on an IMAGE tensor of shape
`(b, h, w, 3)` succeeds if and only if the batch dimension `b` is exactly
1: `squeeze(0)` drops only a size-1 leading dimension, and
`Image.fromarray` rejects the 4-D array that remains for any other batch
size. -/
theorem controlNetUnit_run_batch_one (controlnet b h w : Nat)
    (scale start end_ : ℚ) :
    (∃ out, controlNetUnit_run controlnet [b, h, w, 3] scale start end_
        = .ok out) ↔ b = 1 := by
  by_cases hb : b = 1
  · subst hb
    simp [controlNetUnit_run, comfy_image_to_pil, squeeze0, image_fromarray]
  · simp [controlNetUnit_run, comfy_image_to_pil, squeeze0, image_fromarray,
      hb]

/-- Witness for C9: batch 1 converts, batch 2 fails. -/
theorem controlNetUnit_run_batch_one_witness :
    (∃ out, controlNetUnit_run 7 [1, 8, 8, 3] 1 0 1 = .ok out) ∧
    ¬ (∃ out, controlNetUnit_run 7 [2, 8, 8, 3] 1 0 1 = .ok out) :=
  ⟨(controlNetUnit_run_batch_one 7 1 8 8 1 0 1).mpr rfl,
   fun hok => absurd ((controlNetUnit_run_batch_one 7 2 8 8 1 0 1).mp hok)
     (by decide)⟩

/-- C10: the controlnet-unit preprocessing of `DiffusersGenerator.run`
rewrites each caller-visible unit in place: afterwards element `i` holds
the original unit with only its `image` field replaced by the letterboxed
resize to the active canvas `(images.shape[2], images.shape[1])` — so
`controlnet`, `scale`, `start` and `end` are unchanged — the number of
units is unchanged, and every stored image is now an RGBA canvas. -/
theorem generator_resize_units_spec (resample : PImage → Nat → Nat → PImage)
    (imagesShape : List Nat) (units : List CtrlUnit) :
    (generator_resize_units resample imagesShape units).length
      = units.length ∧
    (∀ (i : Nat), (generator_resize_units resample imagesShape units)[i]?
        = (units[i]?).map (fun (u : CtrlUnit) =>
            { u with
              image := resize_with_padding resample u.image
                (activeCanvas imagesShape) })) ∧
    (∀ u, u ∈ generator_resize_units resample imagesShape units →
      u.image.mode = "RGBA") := by
  refine ⟨List.length_map _ _, fun i => ?_, fun u hu => ?_⟩
  · simp [generator_resize_units]
  · obtain ⟨v, _, rfl⟩ := List.mem_map.mp hu
    rfl

/-- Witness for C10 at a concrete unit list and image tensor shape. -/
theorem generator_resize_units_spec_witness :
    (generator_resize_units demoResample [1, 6, 4, 3] [demoUnit]).length
      = 1 ∧
    (generator_resize_units demoResample [1, 6, 4, 3] [demoUnit])[0]?
      = some { demoUnit with
          image := resize_with_padding demoResample demoUnit.image
            (activeCanvas [1, 6, 4, 3]) } ∧
    ({ demoUnit with
        image := resize_with_padding demoResample demoUnit.image
          (activeCanvas [1, 6, 4, 3]) } : CtrlUnit).image.mode = "RGBA" := by
  have H := generator_resize_units_spec demoResample [1, 6, 4, 3] [demoUnit]
  refine ⟨H.1, H.2.1 0, H.2.2 _ ?_⟩
  exact List.mem_map.mpr ⟨demoUnit, List.mem_singleton.mpr rfl, rfl⟩

end ComfyUIJ
